import Mathlib

/-!
Verification of the honeypot-api scam-intelligence service.

Shallow embedding of the Python sources (`intelligence_extractor.py`,
`agent.py`, `session_manager.py`, `main.py`) of the honeypot-api
repository, together with theorems settling the specification claims
about text normalization, intelligence extraction, the conversation
termination policy, session merging, and the `/analyze` request flow.

Strings are modelled as Lean `String`/`List Char`; Python regular
expressions are modelled by deterministic left-to-right scanners that
reproduce `re.finditer` on the pattern classes actually used (all the
patterns involved are backtracking-free because their optional parts
consume characters disjoint from what follows them).
-/

namespace Honeypot

/-- Python `\s` (ASCII core): space, tab, newline, carriage return,
vertical tab, form feed. -/
def isPySpace (c : Char) : Bool :=
  c = ' ' || c = '\t' || c = '\n' || c = '\r' || c = '\x0b' || c = '\x0c'

/-- Python `\w` (ASCII core): letters, digits, underscore. -/
def isWordChar (c : Char) : Bool :=
  c.isAlphanum || c = '_'

/-- Python `str.replace old new`: replace non-overlapping occurrences of
`old` left to right.  An empty `old` is never used by the sources; it is
treated as "no replacement" here.  The recursion is structural on a fuel
argument; every step consumes at least one character of the text, so a
fuel of `s.length` (supplied by `replaceList`) never runs out. -/
def replaceListF (old new : List Char) : Nat → List Char → List Char
  | _, [] => []
  | 0, s => s
  | fuel + 1, c :: rest =>
    if !old.isEmpty && old.isPrefixOf (c :: rest) then
      new ++ replaceListF old new fuel (rest.drop (old.length - 1))
    else
      c :: replaceListF old new fuel rest

/-- Python `str.replace` at full fuel. -/
def replaceList (old new : List Char) (s : List Char) : List Char :=
  replaceListF old new s.length s

/-- Python `str.replace` lifted to `String`. -/
def pyReplace (s old new : String) : String :=
  String.mk (replaceList old.data new.data s.data)

/-- The fourth key of the `replacements` dict in
`IntelligenceExtractor._normalize_text`.  In the source file the two
lines intended to replace curly single quotes are parsed by Python as a
single triple-quoted string, so the actual dict key is this 34-character
string (`: "'",  # curly quote\n` followed by twelve spaces). -/
def curlyKey : String :=
  ": \x22\x27\x22,  # curly quote\n            "

/-- Source `IntelligenceExtractor._normalize_text`: sequential `str.replace`
over the entries of the `replacements` dict, in dict order.  The two
`'"': '"'` entries collapse to a single (identity) entry because Python
dicts keep one binding per key. -/
def normalize_text (text : String) : String :=
  let t1 := pyReplace text "–" "-"
  let t2 := pyReplace t1 "—" "-"
  let t3 := pyReplace t2 "−" "-"
  let t4 := pyReplace t3 curlyKey "\x27"
  let t5 := pyReplace t4 "\x22" "\x22"
  pyReplace t5 "\xa0" " "

/-- Python `lstrip` with an explicit character set. -/
def lstripSet (cs : List Char) (s : List Char) : List Char :=
  s.dropWhile (fun c => cs.contains c)

/-- Python `rstrip` with an explicit character set. -/
def rstripSet (cs : List Char) (s : List Char) : List Char :=
  (s.reverse.dropWhile (fun c => cs.contains c)).reverse

/-- Python `str.strip()` (whitespace, ASCII core). -/
def pyStrip (s : List Char) : List Char :=
  ((s.dropWhile isPySpace).reverse.dropWhile isPySpace).reverse

/-- Source `IntelligenceExtractor._clean_extracted_value`:
`value.strip().rstrip('.,;:!?)\"\x27>').lstrip('<\"\x27(')`. -/
def clean_extracted_value (v : String) : String :=
  String.mk
    (lstripSet ['<', '\x22', '\x27', '(']
      (rstripSet ['.', ',', ';', ':', '!', '?', ')', '\x22', '\x27', '>']
        (pyStrip v.data)))

/-! ## Bank-account extraction (`extract_bank_accounts`) -/

/-- Matches of `\b(\d{9,18})\b` over the text: maximal digit runs of
length 9 to 18 delimited by word boundaries.  `prev` is the character
just before the current position (`none` at the start of the text).
Structural on fuel; every step consumes at least one character, so the
fuel `s.length` supplied by `digitRunMatches` never runs out. -/
def digitRunMatchesF : Nat → Option Char → List Char → List (List Char)
  | _, _, [] => []
  | 0, _, _ => []
  | fuel + 1, prev, c :: rest =>
    if c.isDigit && (match prev with | none => true | some p => !isWordChar p) then
      let run := c :: rest.takeWhile Char.isDigit
      let rest2 := rest.dropWhile Char.isDigit
      let okRight := match rest2.head? with | none => true | some q => !isWordChar q
      (if okRight && decide (9 ≤ run.length) && decide (run.length ≤ 18) then [run] else [])
        ++ digitRunMatchesF fuel (some (run.getLastD c)) rest2
    else
      digitRunMatchesF fuel (some c) rest

/-- The `\b(\d{9,18})\b` scan at full fuel. -/
def digitRunMatches (prev : Option Char) (s : List Char) : List (List Char) :=
  digitRunMatchesF s.length prev s

/-- The phone-number filters of `extract_bank_accounts`: a 10-digit run
starting with 6-9, or a 12-digit run `91` + mobile-leading digit. -/
def isPhoneLike (num : List Char) : Bool :=
  (decide (num.length = 10) &&
    (match num.head? with
     | some d => ['6', '7', '8', '9'].contains d
     | none => false))
  || (decide (num.length = 12) && num.take 2 == ['9', '1'] &&
    (match num.get? 2 with
     | some d => ['6', '7', '8', '9'].contains d
     | none => false))

/-- The separator class `[-\s]` of the card pattern. -/
def isCardSep (c : Char) : Bool :=
  c = '-' || isPySpace c

/-- Consume exactly four digits (`\d{4}`). -/
def take4 (s : List Char) : Option (List Char × List Char) :=
  match s with
  | a :: b :: c :: d :: rest =>
    if a.isDigit && b.isDigit && c.isDigit && d.isDigit then
      some ([a, b, c, d], rest)
    else none
  | _ => none

/-- Consume an optional separator (`[-\s]?`).  The pattern is
backtracking-free here: a separator character can never begin the
`\d{4}` that follows, so the greedy choice is the only viable one. -/
def dropSep (s : List Char) : List Char :=
  match s with
  | c :: rest => if isCardSep c then rest else c :: rest
  | [] => []

/-- Match `(\d{4})[-\s]?(\d{4})[-\s]?(\d{4})[-\s]?(\d{4})\b` at the head
of `s`, returning the concatenated 16 digits and the remainder. -/
def matchCard (s : List Char) : Option (List Char × List Char) :=
  match take4 s with
  | none => none
  | some (g1, r1) =>
    match take4 (dropSep r1) with
    | none => none
    | some (g2, r2) =>
      match take4 (dropSep r2) with
      | none => none
      | some (g3, r3) =>
        match take4 (dropSep r3) with
        | none => none
        | some (g4, r4) =>
          match r4.head? with
          | some q => if isWordChar q then none else some (g1 ++ g2 ++ g3 ++ g4, r4)
          | none => some (g1 ++ g2 ++ g3 ++ g4, r4)

theorem take4_group_len {s g r : List Char} (h : take4 s = some (g, r)) :
    g.length = 4 := by
  unfold take4 at h
  split at h
  · split at h
    · simp only [Option.some.injEq, Prod.mk.injEq] at h
      obtain ⟨h1, -⟩ := h
      subst h1
      rfl
    · exact absurd h (by simp)
  · exact absurd h (by simp)

theorem matchCard_card_len {s : List Char} {p : List Char × List Char}
    (h : matchCard s = some p) : p.1.length = 16 := by
  unfold matchCard at h
  split at h
  · exact absurd h (by simp)
  case _ g1 r1 h1 =>
    split at h
    · exact absurd h (by simp)
    case _ g2 r2 h2 =>
      split at h
      · exact absurd h (by simp)
      case _ g3 r3 h3 =>
        split at h
        · exact absurd h (by simp)
        case _ g4 r4 h4 =>
          have e1 := take4_group_len h1
          have e2 := take4_group_len h2
          have e3 := take4_group_len h3
          have e4 := take4_group_len h4
          have hc : p.1 = g1 ++ g2 ++ g3 ++ g4 := by
            split at h
            · split at h
              · exact absurd h (by simp)
              · simp only [Option.some.injEq] at h; rw [← h]
            · simp only [Option.some.injEq] at h; rw [← h]
          rw [hc]
          simp [List.length_append, e1, e2, e3, e4]

/-- Python `re.finditer` over the card pattern: scan left to right, emitting
non-overlapping matches.  A match may only start at a word boundary.
Structural on fuel; every step (a match consumes at least 16 characters,
a failure advances by one) consumes at least one character, so the fuel
`s.length` supplied by `cardScan` never runs out. -/
def cardScanF : Nat → Option Char → List Char → List (List Char)
  | _, _, [] => []
  | 0, _, _ => []
  | fuel + 1, prev, c :: rest =>
    if (match prev with | none => true | some p => !isWordChar p) && c.isDigit then
      match matchCard (c :: rest) with
      | some (card, remainder) =>
        card :: cardScanF fuel (some (card.getLastD '0')) remainder
      | none => cardScanF fuel (some c) rest
    else cardScanF fuel (some c) rest

/-- The card-pattern scan at full fuel. -/
def cardScan (prev : Option Char) (s : List Char) : List (List Char) :=
  cardScanF s.length prev s

/-- Source `IntelligenceExtractor.extract_bank_accounts`: 9-18 digit runs not
shaped like phone numbers, plus 16-digit card-format matches; collected
into a set (modelled as a deduplicated list). -/
def extract_bank_accounts (text : String) : List String :=
  let t := (normalize_text text).data
  let p1 := ((digitRunMatches none t).filter (fun num => !isPhoneLike num)).map String.mk
  let p2 := (cardScan none t).map String.mk
  (p1 ++ p2).dedup

/-! ## A generic `re.finditer` scanner

All remaining patterns are scanned with `scanWith`: the matcher is tried
at every position from left to right, and after a successful match the
scan resumes at the end of the match (non-overlapping matches), with the
last matched character as the new lookbehind character.  Structural on
fuel; every matcher below consumes at least one character per match and
a failed position advances the scan by one character, so the fuel
`s.length` supplied by `scanWith` never runs out. -/

def scanWithF (matcher : List Char → Option (List Char × List Char))
    (startOk : Option Char → Char → Bool) :
    Nat → Option Char → List Char → List (List Char)
  | _, _, [] => []
  | 0, _, _ => []
  | fuel + 1, prev, c :: rest =>
    if startOk prev c then
      match matcher (c :: rest) with
      | some (m, rem) => m :: scanWithF matcher startOk fuel (some (m.getLastD '0')) rem
      | none => scanWithF matcher startOk fuel (some c) rest
    else scanWithF matcher startOk fuel (some c) rest

/-- A pattern scan at full fuel. -/
def scanWith (matcher : List Char → Option (List Char × List Char))
    (startOk : Option Char → Char → Bool) (prev : Option Char) (s : List Char) :
    List (List Char) :=
  scanWithF matcher startOk s.length prev s

/-- Start-of-match position test for every pattern with no lookbehind. -/
def anyStart : Option Char → Char → Bool := fun _ _ => true

/-- Word-boundary test `\b` for patterns whose first character is a word
character: the preceding character must not be a word character. -/
def boundaryStart : Option Char → Char → Bool := fun prev _ =>
  match prev with
  | none => true
  | some p => !isWordChar p

/-- Negative lookbehind `(?<!\d)`. -/
def notDigitStart : Option Char → Char → Bool := fun prev _ =>
  match prev with
  | none => true
  | some p => !p.isDigit

/-! ## UPI-id extraction (`extract_upi_ids`) -/

/-- Python `str.lower` (ASCII core). -/
def pyLower (s : String) : String :=
  String.mk (s.data.map Char.toLower)

/-- The character class `[a-zA-Z0-9._-]` of the UPI pattern. -/
def isUpiChar (c : Char) : Bool :=
  c.isAlphanum || c = '.' || c = '_' || c = '-'

/-- Match `([a-zA-Z0-9][a-zA-Z0-9._-]*@[a-zA-Z0-9][a-zA-Z0-9._-]*)` at
the head of the text. -/
def matchUpi (s : List Char) : Option (List Char × List Char) :=
  match s with
  | [] => none
  | c :: rest =>
    if c.isAlphanum then
      let run1 := c :: rest.takeWhile isUpiChar
      match rest.dropWhile isUpiChar with
      | '@' :: d :: rest2 =>
        if d.isAlphanum then
          let run2 := d :: rest2.takeWhile isUpiChar
          some (run1 ++ '@' :: run2, rest2.dropWhile isUpiChar)
        else none
      | _ => none
    else none

/-- The `email_tlds` set of `extract_upi_ids`. -/
def email_tlds : List String :=
  [".com", ".org", ".net", ".in", ".co", ".io", ".edu",
   ".gov", ".info", ".biz", ".me", ".us", ".uk", ".au"]

/-- The `email_providers` set of `extract_upi_ids`. -/
def email_providers : List String :=
  ["gmail", "yahoo", "hotmail", "outlook", "email",
   "mail", "protonmail", "icloud", "live", "msn",
   "aol", "rediffmail", "zoho", "yandex"]

/-- Python `needle in hay` substring test. -/
def containsSub : List Char → List Char → Bool
  | n, [] => n.isEmpty
  | n, c :: rest => n.isPrefixOf (c :: rest) || containsSub n rest

/-- Python `s.split('@')[-1]`: everything after the last `'@'` (the
whole string when no `'@'` occurs). -/
def afterLastAt (s : List Char) : List Char :=
  (s.reverse.takeWhile (fun c => c ≠ '@')).reverse

/-- The email filters of `extract_upi_ids`, applied to the suffix after
the last `'@'`: known top-level domain, or known provider substring. -/
def isEmailLike (upi : List Char) : Bool :=
  let suffix := afterLastAt upi
  email_tlds.any (fun tld => tld.data.isSuffixOf suffix)
    || email_providers.any (fun p => containsSub p.data suffix)

/-- Source `IntelligenceExtractor.extract_upi_ids`. -/
def extract_upi_ids (text : String) : List String :=
  let t := (normalize_text (pyLower text)).data
  let cands := (scanWith matchUpi anyStart none t).map
    (fun m => clean_extracted_value (String.mk m))
  (cands.filter (fun upi =>
    !upi.isEmpty && upi.data.contains '@' && !isEmailLike upi.data)).dedup

/-! ## Phone-number extraction (`extract_phone_numbers`) -/

/-- The separator class `[-\s.]` of the phone patterns. -/
def isPhoneSep (c : Char) : Bool :=
  c = '-' || isPySpace c || c = '.'

/-- Consume an optional separator (`[-\s.]?`); backtracking-free because
a separator can never begin the digit group that follows. -/
def dropPhoneSep (s : List Char) : List Char :=
  match s with
  | c :: rest => if isPhoneSep c then rest else c :: rest
  | [] => []

/-- Consume exactly `n` digits (`\d{n}`). -/
def takeDigits : Nat → List Char → Option (List Char × List Char)
  | 0, s => some ([], s)
  | _ + 1, [] => none
  | n + 1, c :: rest =>
    if c.isDigit then (takeDigits n rest).map (fun gr => (c :: gr.1, gr.2)) else none

/-- Word-boundary check after a digit group: the next character must not
be a word character. -/
def boundaryAfter (s : List Char) : Bool :=
  match s.head? with
  | none => true
  | some q => !isWordChar q

/-- Pattern 1: `\+91[-\s.]?(\d{5})[-\s.]?(\d{5})`. -/
def matchPhone1 (s : List Char) : Option (List Char × List Char) :=
  match s with
  | '+' :: '9' :: '1' :: rest =>
    match takeDigits 5 (dropPhoneSep rest) with
    | none => none
    | some (g1, r1) =>
      match takeDigits 5 (dropPhoneSep r1) with
      | none => none
      | some (g2, r2) => some (g1 ++ g2, r2)
  | _ => none

/-- Pattern 2: `\+91[-\s.]?(\d{10})\b`. -/
def matchPhone2 (s : List Char) : Option (List Char × List Char) :=
  match s with
  | '+' :: '9' :: '1' :: rest =>
    match takeDigits 10 (dropPhoneSep rest) with
    | none => none
    | some (g, r) => if boundaryAfter r then some (g, r) else none
  | _ => none

/-- Pattern 3: `\b91[-\s.]?(\d{10})\b` (the leading `\b` is checked by
the scanner's `boundaryStart`). -/
def matchPhone3 (s : List Char) : Option (List Char × List Char) :=
  match s with
  | '9' :: '1' :: rest =>
    match takeDigits 10 (dropPhoneSep rest) with
    | none => none
    | some (g, r) => if boundaryAfter r then some (g, r) else none
  | _ => none

/-- Pattern 4: `\b0(\d{10})\b`. -/
def matchPhone4 (s : List Char) : Option (List Char × List Char) :=
  match s with
  | '0' :: rest =>
    match takeDigits 10 rest with
    | none => none
    | some (g, r) => if boundaryAfter r then some (g, r) else none
  | _ => none

/-- Pattern 5: `(?<!\d)([6-9]\d{9})(?!\d)` (the lookbehind is checked by
the scanner's `notDigitStart`). -/
def matchPhone5 (s : List Char) : Option (List Char × List Char) :=
  match s with
  | c :: rest =>
    if ['6', '7', '8', '9'].contains c then
      match takeDigits 9 rest with
      | none => none
      | some (g, r) =>
        match r.head? with
        | some q => if q.isDigit then none else some (c :: g, r)
        | none => some (c :: g, r)
    else none
  | [] => none

/-- Source `IntelligenceExtractor.extract_phone_numbers`: every pattern's
captured digits are normalized to `"+91"` + 10 digits. -/
def extract_phone_numbers (text : String) : List String :=
  let t := (normalize_text text).data
  let toPhone := fun (m : List Char) => "+91" ++ String.mk m
  let p1 := (scanWith matchPhone1 anyStart none t).map toPhone
  let p2 := (scanWith matchPhone2 anyStart none t).map toPhone
  let p3 := (scanWith matchPhone3 boundaryStart none t).map toPhone
  let p4 := (scanWith matchPhone4 boundaryStart none t).map toPhone
  let p5 := (scanWith matchPhone5 notDigitStart none t).map toPhone
  (p1 ++ p2 ++ p3 ++ p4 ++ p5).dedup

/-! ## Phishing-link extraction (`extract_phishing_links`) -/

/-- The body class `[^\s<>"]` of the `https?://` pattern. -/
def isUrlBodyChar (c : Char) : Bool :=
  !(isPySpace c || c = '<' || c = '>' || c = '\x22')

/-- Pattern 1: `https?://[^\s<>"]+`, case-insensitive; the match keeps
the original casing. -/
def matchHttp (s : List Char) : Option (List Char × List Char) :=
  match s with
  | a :: b :: c :: d :: rest =>
    if a.toLower = 'h' && b.toLower = 't' && c.toLower = 't' && d.toLower = 'p' then
      let sPart : List Char × List Char :=
        match rest with
        | e :: r => if e.toLower = 's' then ([e], r) else ([], rest)
        | [] => ([], rest)
      match sPart.2 with
      | x :: y :: z :: rest3 =>
        if x = ':' && y = '/' && z = '/' then
          let body := rest3.takeWhile isUrlBodyChar
          if body.isEmpty then none
          else some ([a, b, c, d] ++ sPart.1 ++ [x, y, z] ++ body,
                     rest3.dropWhile isUrlBodyChar)
        else none
      | _ => none
    else none
  | _ => none

/-- The body class of the `www.` pattern: everything except whitespace,
angle brackets, both quotes, the backquote, square brackets, braces,
pipe, backslash and caret. -/
def isWwwBodyChar (c : Char) : Bool :=
  !(isPySpace c || c = '<' || c = '>' || c = '\x22' || c = '\x27' || c = '\x60'
    || c = '[' || c = ']' || c = '\x7b' || c = '\x7d' || c = '|' || c = '\x5c'
    || c = '\x5e')

/-- Pattern 2: `\b(www\.[^...]+)`, case-insensitive (the `\b` is checked
by the scanner's `boundaryStart`). -/
def matchWww (s : List Char) : Option (List Char × List Char) :=
  match s with
  | a :: b :: c :: d :: rest =>
    if a.toLower = 'w' && b.toLower = 'w' && c.toLower = 'w' && d = '.' then
      let body := rest.takeWhile isWwwBodyChar
      if body.isEmpty then none
      else some ([a, b, c, d] ++ body, rest.dropWhile isWwwBodyChar)
    else none
  | _ => none

/-- The `shorteners` list. -/
def shorteners : List String :=
  ["bit.ly", "tinyurl.com", "goo.gl", "t.co", "cutt.ly",
   "shorturl.at", "rb.gy", "ow.ly", "is.gd", "v.gd"]

/-- Case-insensitive literal matcher, keeping the original casing. -/
def stripCiLit : List Char → List Char → Option (List Char × List Char)
  | [], s => some ([], s)
  | _ :: _, [] => none
  | l :: ls, c :: rest =>
    if c.toLower = l.toLower then
      (stripCiLit ls rest).map (fun gr => (c :: gr.1, gr.2))
    else none

/-- The body class `[^\s<>"']` of the shortener patterns. -/
def isShortBodyChar (c : Char) : Bool :=
  !(isPySpace c || c = '<' || c = '>' || c = '\x22' || c = '\x27')

/-- Pattern 3: `shortener/[^\s<>"']+`, case-insensitive, one pattern per
entry of `shorteners` (`re.escape` makes the dots literal). -/
def matchShort (lit : List Char) (s : List Char) : Option (List Char × List Char) :=
  match stripCiLit (lit ++ ['/']) s with
  | none => none
  | some (pre, r) =>
    let body := r.takeWhile isShortBodyChar
    if body.isEmpty then none
    else some (pre ++ body, r.dropWhile isShortBodyChar)

/-- Trailing characters stripped from a pattern-1 URL:
`url.rstrip('.,;:!?)">]')`. -/
def urlTrailChars : List Char :=
  ['.', ',', ';', ':', '!', '?', ')', '\x22', '>', ']']

/-- Python `str.startswith "http"`. -/
def startsWithHttp (u : String) : Bool :=
  "http".data.isPrefixOf u.data

/-- Source `IntelligenceExtractor.extract_phishing_links` (the `print`
statements of the source are I/O and have no counterpart here). -/
def extract_phishing_links (text : String) : List String :=
  let t := (normalize_text text).data
  let u1 := ((scanWith matchHttp anyStart none t).map
    (fun m => String.mk (rstripSet urlTrailChars m))).filter (fun u => !u.isEmpty)
  let u2 := (((scanWith matchWww boundaryStart none t).map
    (fun m => clean_extracted_value (String.mk m))).filter
      (fun u => !u.isEmpty)).map (fun u => "https://" ++ u)
  let u3 := shorteners.flatMap (fun sh =>
    (((scanWith (matchShort sh.data) anyStart none t).map
      (fun m => clean_extracted_value (String.mk m))).filter
        (fun u => !u.isEmpty)).map
          (fun u => if startsWithHttp u then u else "https://" ++ u))
  (u1 ++ u2 ++ u3).dedup

/-! ## Suspicious-keyword extraction (`extract_suspicious_keywords`) -/

/-- The keyword list of `extract_suspicious_keywords`. -/
def suspicious_keyword_list : List String :=
  ["urgent", "immediately", "right now", "within minutes", "hurry",
   "blocked", "suspended", "freeze", "locked", "terminated", "deactivated",
   "verify", "confirm", "validate", "authenticate",
   "otp", "pin", "password", "cvv", "mpin", "atm pin",
   "kyc", "pan", "aadhar", "identity", "pan card",
   "refund", "cashback", "prize", "lottery", "winner", "reward", "bonus",
   "claim", "redeem", "collect", "receive",
   "warning", "alert", "security", "unauthorized", "suspicious activity",
   "compromised", "hacked", "expired", "expiring"]

/-- Source `IntelligenceExtractor.extract_suspicious_keywords`: substring test
against the lowercased text (no normalization here, matching the
source). -/
def extract_suspicious_keywords (text : String) : List String :=
  let tl := (pyLower text).data
  (suspicious_keyword_list.filter (fun k => containsSub k.data tl)).dedup

/-! ## Data model and `extract_all` -/

/-- A conversation message (`models.MessageInput` /
the dicts stored in `SessionState.messages`). -/
structure Message where
  sender : String
  text : String
  timestamp : Int
deriving DecidableEq, Repr

/-- Source `models.ExtractedIntelligence`. -/
structure ExtractedIntelligence where
  bankAccounts : List String := []
  upiIds : List String := []
  phishingLinks : List String := []
  phoneNumbers : List String := []
  suspiciousKeywords : List String := []
deriving DecidableEq, Repr

/-- Source `IntelligenceExtractor.extract_all`: join all message texts with a
space and run every extractor on the combined text. -/
def extract_all (messages : List Message) : ExtractedIntelligence :=
  let all_text := String.intercalate " " (messages.map Message.text)
  { bankAccounts := extract_bank_accounts all_text
    upiIds := extract_upi_ids all_text
    phoneNumbers := extract_phone_numbers all_text
    phishingLinks := extract_phishing_links all_text
    suspiciousKeywords := extract_suspicious_keywords all_text }

/-! ## Conversation termination policy
(`HoneypotAgent.should_end_conversation`) -/

/-- Source `HoneypotAgent.should_end_conversation`: returns the stop decision
and the reason string, following the source's early-return order. -/
def should_end_conversation (conversation_history : List Message)
    (intelligence_extracted : ExtractedIntelligence) : Bool × String :=
  let msg_count := conversation_history.length
  if msg_count ≥ 20 then
    (true, "Maximum message count reached")
  else
    let has_bank := intelligence_extracted.bankAccounts.length > 0
    let has_upi := intelligence_extracted.upiIds.length > 0
    let has_phone := intelligence_extracted.phoneNumbers.length > 0
    let has_link := intelligence_extracted.phishingLinks.length > 0
    let intel_count := (if has_bank then 1 else 0) + (if has_upi then 1 else 0)
      + (if has_phone then 1 else 0) + (if has_link then 1 else 0)
    if intel_count ≥ 2 ∧ msg_count ≥ 10 then
      (true, "Sufficient intelligence extracted")
    else if intel_count ≥ 3 then
      (true, "Rich intelligence extracted")
    else
      (false, "Continue engagement")

/-- The number of non-empty categories among the four used by the
termination policy (bank accounts, UPI ids, phone numbers, phishing
links). -/
def intelCount (i : ExtractedIntelligence) : Nat :=
  (if i.bankAccounts.length > 0 then 1 else 0)
    + (if i.upiIds.length > 0 then 1 else 0)
    + (if i.phoneNumbers.length > 0 then 1 else 0)
    + (if i.phishingLinks.length > 0 then 1 else 0)

/-! ## Agent notes (`IntelligenceExtractor.generate_agent_notes`)

The handler always passes the already-extracted intelligence, so the
`intelligence is None` re-extraction branch is never taken and the
message list is unused by the source beyond that branch. -/

/-- Python `any(k in keywords for k in ks)`. -/
def anyKeyword (ks keywords : List String) : Bool :=
  ks.any (fun k => keywords.contains k)

/-- Source `IntelligenceExtractor.generate_agent_notes` with explicit
intelligence. -/
def generate_agent_notes (_messages : List Message)
    (intelligence : ExtractedIntelligence) : String :=
  let keywords := intelligence.suspiciousKeywords
  let scam_type :=
    if anyKeyword ["otp", "pin", "password", "cvv", "mpin"] keywords then
      "OTP/credential theft scam"
    else if anyKeyword ["blocked", "suspended", "freeze", "locked"] keywords then
      "Account blocking fraud"
    else if anyKeyword ["lottery", "prize", "winner"] keywords then
      "Lottery/prize scam"
    else if anyKeyword ["refund", "cashback"] keywords then
      "Refund/cashback fraud"
    else if anyKeyword ["kyc", "pan", "aadhar"] keywords then
      "KYC verification scam"
    else "Financial fraud attempt"
  let tactics :=
    (if anyKeyword ["urgent", "immediately", "right now", "hurry"] keywords then
      ["urgency"] else [])
    ++ (if anyKeyword ["blocked", "suspended", "warning", "freeze", "locked"] keywords then
      ["fear/threats"] else [])
    ++ (if anyKeyword ["verify", "identity", "security", "authenticate"] keywords then
      ["impersonation"] else [])
  let intel_parts :=
    (if intelligence.phoneNumbers.isEmpty then [] else
      ["Phone: " ++ String.intercalate ", " (intelligence.phoneNumbers.take 3)])
    ++ (if intelligence.upiIds.isEmpty then [] else
      ["UPI: " ++ String.intercalate ", " (intelligence.upiIds.take 3)])
    ++ (if intelligence.phishingLinks.isEmpty then [] else
      ["URL: " ++ String.intercalate ", " (intelligence.phishingLinks.take 2)])
    ++ (if intelligence.bankAccounts.isEmpty then [] else
      ["Account: " ++ String.intercalate ", " (intelligence.bankAccounts.take 2)])
  let notes_parts := ["Scam type: " ++ scam_type ++ "."]
    ++ (if tactics.isEmpty then [] else
      ["Tactics: " ++ String.intercalate ", " tactics ++ "."])
    ++ (if intel_parts.isEmpty then [] else
      ["Extracted: " ++ String.intercalate "; " intel_parts ++ "."])
  String.intercalate " " notes_parts

/-! ## Session manager (`session_manager.py`)

The in-memory dict of `SessionManager` is modelled extensionally as a
partial map from session ids to states; Python's in-place mutation of a
fetched `SessionState` becomes re-binding the id to the updated state. -/

/-- Source `session_manager.SessionState` (scam confidence, a Python float the
claims never inspect, is carried as a rational). -/
structure SessionState where
  session_id : String
  scam_detected : Bool := false
  scam_confidence : ℚ := 0
  messages : List Message := []
  extracted_intelligence : ExtractedIntelligence := {}
  agent_notes : String := ""
  callback_sent : Bool := false
deriving DecidableEq

/-- The session store: `SessionManager._sessions`. -/
def Store : Type := String → Option SessionState

/-- A fresh `SessionState(session_id=sid)`. -/
def newSession (sid : String) : SessionState :=
  { session_id := sid }

namespace SessionManager

/-- Source `SessionManager.get_or_create`. -/
def get_or_create (st : Store) (sid : String) : Store × SessionState :=
  match st sid with
  | some s => (st, s)
  | none =>
    let s := newSession sid
    (fun k => if k = sid then some s else st k, s)

/-- Source `SessionManager.get`: a pure lookup, returned together with the
(unchanged) store to which the method has access. -/
def get (st : Store) (sid : String) : Store × Option SessionState :=
  (st, st sid)

/-- Fetch-then-mutate, the shape of every updating method of
`SessionManager`: `session = self.get_or_create(session_id)` followed by
field assignments on `session`. -/
def updSession (st : Store) (sid : String) (f : SessionState → SessionState) : Store :=
  let gc := get_or_create st sid
  fun k => if k = sid then some (f gc.2) else gc.1 k

/-- Source `SessionManager.add_message`. -/
def add_message (st : Store) (sid sender text : String) (timestamp : Int) : Store :=
  updSession st sid (fun s =>
    { s with messages := s.messages ++ [⟨sender, text, timestamp⟩] })

/-- Source `SessionManager.mark_scam_detected`. -/
def mark_scam_detected (st : Store) (sid : String) (confidence : ℚ) : Store :=
  updSession st sid (fun s =>
    { s with scam_detected := true, scam_confidence := confidence })

/-- The per-field merge of `SessionManager.update_intelligence`:
`list(set(old + new))` on each of the five fields, modelled as a
deduplicated concatenation (equal as a set). -/
def mergeIntelligence (old new : ExtractedIntelligence) : ExtractedIntelligence :=
  { bankAccounts := (old.bankAccounts ++ new.bankAccounts).dedup
    upiIds := (old.upiIds ++ new.upiIds).dedup
    phishingLinks := (old.phishingLinks ++ new.phishingLinks).dedup
    phoneNumbers := (old.phoneNumbers ++ new.phoneNumbers).dedup
    suspiciousKeywords := (old.suspiciousKeywords ++ new.suspiciousKeywords).dedup }

/-- Source `SessionManager.update_intelligence`. -/
def update_intelligence (st : Store) (sid : String)
    (intelligence : ExtractedIntelligence) : Store :=
  updSession st sid (fun s =>
    { s with extracted_intelligence :=
        mergeIntelligence s.extracted_intelligence intelligence })

/-- Source `SessionManager.set_agent_notes`. -/
def set_agent_notes (st : Store) (sid notes : String) : Store :=
  updSession st sid (fun s => { s with agent_notes := notes })

/-- Source `SessionManager.mark_callback_sent`. -/
def mark_callback_sent (st : Store) (sid : String) : Store :=
  updSession st sid (fun s => { s with callback_sent := true })

/-- Source `SessionManager.delete`. -/
def delete (st : Store) (sid : String) : Store :=
  fun k => if k = sid then none else st k

end SessionManager

/-! ## The `/analyze` handler (`main.analyze_message`)

Everything the handler obtains from the outside world — the scam
detector's LLM verdict, the agent's LLM reply, the wall-clock timestamp
of the reply, and the success of the HTTP callback to the evaluation
endpoint — is a per-request input in `AnalyzeEnv`.  Everything else is
the deterministic code of the repository. -/

/-- Source `models.AnalyzeRequest` (the optional metadata only parametrizes the
LLM reply and is absorbed into `AnalyzeEnv.agent_reply`). -/
structure AnalyzeRequest where
  sessionId : String
  message : Message
  conversationHistory : List Message := []

/-- The external inputs of one `/analyze` request. -/
structure AnalyzeEnv where
  detect_is_scam : Bool
  detect_confidence : ℚ
  agent_reply : String
  reply_timestamp : Int
  callback_success : Bool

/-- The observable outcome of one `/analyze` call: an HTTP error, or a
success carrying the agent's reply together with whether a final-report
dispatch was attempted and whether it succeeded. -/
inductive AnalyzeOutcome
  | error (statusCode : Nat) (detail : String)
  | ok (reply : String) (dispatchAttempted dispatchSucceeded : Bool)
deriving DecidableEq

/-- Python `not s or not s.strip()`. -/
def pyBlank (s : String) : Bool :=
  (pyStrip s.data).isEmpty

/-- Steps 1-5 of the `/analyze` handler's session mutation, up to (and
excluding) the dispatch decision: get-or-create the session, append the
incoming message, run scam detection when not yet detected, merge the
extracted intelligence, and append the agent's reply. -/
def analyzeStep5 (st : Store) (req : AnalyzeRequest) (env : AnalyzeEnv) : Store :=
  let sid := req.sessionId
  let gc := SessionManager.get_or_create st sid
  let st2 := SessionManager.add_message gc.1 sid req.message.sender
    req.message.text req.message.timestamp
  let full_history := req.conversationHistory ++ [req.message]
  let st3 :=
    if !gc.2.scam_detected && env.detect_is_scam then
      SessionManager.mark_scam_detected st2 sid env.detect_confidence
    else st2
  let st4 := SessionManager.update_intelligence st3 sid (extract_all full_history)
  SessionManager.add_message st4 sid "user" env.agent_reply env.reply_timestamp

/-- Source `main.analyze_message`. -/
def analyze (st : Store) (req : AnalyzeRequest) (env : AnalyzeEnv) :
    Store × AnalyzeOutcome :=
  if pyBlank req.sessionId then
    (st, .error 400 "sessionId is required and cannot be empty")
  else if pyBlank req.message.text then
    (st, .error 400 "message.text is required and cannot be empty")
  else
    let sid := req.sessionId
    let st5 := analyzeStep5 st req env
    let session := ((SessionManager.get st5 sid).2).getD (newSession sid)
    let se := should_end_conversation session.messages session.extracted_intelligence
    if se.1 && session.scam_detected && !session.callback_sent then
      let agent_notes := generate_agent_notes session.messages
        session.extracted_intelligence
      let st6 := SessionManager.set_agent_notes st5 sid agent_notes
      if env.callback_success then
        (SessionManager.mark_callback_sent st6 sid, .ok env.agent_reply true true)
      else
        (st6, .ok env.agent_reply true false)
    else
      (st5, .ok env.agent_reply false false)

/-- The `callback_sent` (reported) flag of a session id in a store;
`false` for an absent session. -/
def callbackFlag (st : Store) (sid : String) : Bool :=
  match st sid with
  | some s => s.callback_sent
  | none => false

/-- Run a sequence of `/analyze` requests in order. -/
def runTrace (st : Store) : List (AnalyzeRequest × AnalyzeEnv) → Store
  | [] => st
  | (req, env) :: rest => runTrace (analyze st req env).1 rest

/-- Whether one `/analyze` call successfully dispatched the final report
for session `sid`. -/
def stepSuccessFor (st : Store) (req : AnalyzeRequest) (env : AnalyzeEnv)
    (sid : String) : Bool :=
  req.sessionId = sid &&
    match (analyze st req env).2 with
    | .ok _ _ succeeded => succeeded
    | .error _ _ => false

/-- The number of successful final-report dispatches for session `sid`
along a trace of `/analyze` requests. -/
def countSuccess (st : Store) (trace : List (AnalyzeRequest × AnalyzeEnv))
    (sid : String) : Nat :=
  match trace with
  | [] => 0
  | (req, env) :: rest =>
    (if stepSuccessFor st req env sid then 1 else 0)
      + countSuccess (analyze st req env).1 rest sid

/-- The result of `GET /session/{session_id}`
(`main.get_session_info`). -/
inductive SessionInfoResult
  | notFound (statusCode : Nat) (detail : String)
  | info (session_id : String) (scam_detected : Bool) (scam_confidence : ℚ)
      (total_messages : Nat) (callback_sent : Bool)
      (extracted_intelligence : ExtractedIntelligence) (agent_notes : String)
deriving DecidableEq

/-- Source `main.get_session_info`: look the session up with
`SessionManager.get` and raise a 404 when it is absent. -/
def get_session_info (st : Store) (sid : String) : Store × SessionInfoResult :=
  let g := SessionManager.get st sid
  match g.2 with
  | none => (g.1, .notFound 404 "Session not found")
  | some s =>
    (g.1, .info s.session_id s.scam_detected s.scam_confidence
      s.messages.length s.callback_sent s.extracted_intelligence s.agent_notes)

/-! ## Concrete fixtures used by the claim theorems -/

/-- A list of `n` scammer messages. -/
def msgN (n : Nat) : List Message :=
  List.replicate n { sender := "scammer", text := "hi", timestamp := 0 }

/-- Intelligence with exactly bank accounts and phone numbers non-empty
(2 of the 4 policy categories). -/
def intelBankPhone : ExtractedIntelligence :=
  { bankAccounts := ["123456789"], phoneNumbers := ["+919876543210"] }

/-- Intelligence with exactly bank accounts, UPI ids and phone numbers
non-empty (3 of the 4 policy categories). -/
def intelThree : ExtractedIntelligence :=
  { bankAccounts := ["123456789"], upiIds := ["john@ybl"],
    phoneNumbers := ["+919876543210"] }

/-- The empty session store. -/
def emptyStore : Store := fun _ => none

/-! ## Claim theorems -/

/-- C1: `should_end_conversation` returns a stop decision iff the
message count is at least 20, or at least three of the four categories
are non-empty, or at least two are non-empty and the count is at least
10; in particular, 7 messages with exactly bank accounts and phone
numbers non-empty yields CONTINUE. -/
theorem c1_termination_policy (h : List Message) (i : ExtractedIntelligence) :
    ((should_end_conversation h i).1 = true ↔
      (h.length ≥ 20 ∨ intelCount i ≥ 3 ∨ (intelCount i ≥ 2 ∧ h.length ≥ 10)))
    ∧ (should_end_conversation (msgN 7) intelBankPhone).1 = false := by
  constructor
  · simp only [should_end_conversation, intelCount]
    split_ifs with h1 h2 h3 <;> simp_all
  · decide

/-- C2 counterexample: with 10 messages and three categories non-empty,
the policy stops, but the reason is "Sufficient intelligence extracted"
(the two-category-plus-floor rule matches first), not the claimed
"rich intelligence extracted". -/
theorem c2_reason_order_counterexample :
    (msgN 10).length < 20 ∧ intelCount intelThree ≥ 3 ∧
    (should_end_conversation (msgN 10) intelThree).1 = true ∧
    (should_end_conversation (msgN 10) intelThree).2 ≠ "rich intelligence extracted" ∧
    (should_end_conversation (msgN 10) intelThree).2 = "Sufficient intelligence extracted" := by
  refine ⟨by decide, by decide, by decide, by decide, by decide⟩

/-- C2 amended: with three categories non-empty and fewer than 20
messages the policy stops, and the reason is "Rich intelligence
extracted" only when the message count is below 10; from 10 messages on,
the two-category-plus-floor rule precedes it in the source's first-match
order and the reason is "Sufficient intelligence extracted". -/
theorem c2_rich_reason_amended (h : List Message) (i : ExtractedIntelligence)
    (hlen : h.length < 20) (hcat : intelCount i ≥ 3) :
    (should_end_conversation h i).1 = true ∧
    (should_end_conversation h i).2 =
      (if h.length ≥ 10 then "Sufficient intelligence extracted"
       else "Rich intelligence extracted") := by
  simp only [should_end_conversation, intelCount] at *
  split_ifs with h1 h2 h3 <;> simp_all <;> omega

/-- C2 witness: the amended theorem at 5 messages and three non-empty
categories. -/
theorem c2_rich_reason_witness :
    (msgN 5).length < 20 ∧ intelCount intelThree ≥ 3 ∧
    ((should_end_conversation (msgN 5) intelThree).1 = true ∧
      (should_end_conversation (msgN 5) intelThree).2 =
        (if (msgN 5).length ≥ 10 then "Sufficient intelligence extracted"
         else "Rich intelligence extracted")) :=
  ⟨by decide, by decide, c2_rich_reason_amended (msgN 5) intelThree (by decide) (by decide)⟩

/-- The C9 failing input: the 34-character string obtained from the
dict key `curlyKey` by replacing its final space with a non-breaking
space. -/
def c9_input : String :=
  ": \x22\x27\x22,  # curly quote\n           \xa0"

/-- C9: the text normalizer of the source is NOT idempotent.  On
`c9_input`, one application yields `curlyKey` (the non-breaking space
becomes the twelfth trailing space), and a second application collapses
that to a single straight quote; moreover a curly quote passes through
unchanged, contradicting the `# curly quote` comment in the source. -/
theorem c9_normalize_not_idempotent :
    normalize_text (normalize_text c9_input) ≠ normalize_text c9_input ∧
    normalize_text c9_input = curlyKey ∧
    normalize_text (normalize_text c9_input) = "\x27" ∧
    normalize_text "’“" = "’“" := by
  refine ⟨by decide, by decide, by decide, by decide⟩

/-- C6: the per-field merge applied by `update_intelligence` is a set
union on each of the five fields, and merging the same intelligence a
second time changes nothing as a set. -/
theorem c6_merge_union_idempotent (S I : ExtractedIntelligence) :
    (∀ x, x ∈ (SessionManager.mergeIntelligence S I).bankAccounts ↔
      x ∈ S.bankAccounts ∨ x ∈ I.bankAccounts)
    ∧ (∀ x, x ∈ (SessionManager.mergeIntelligence S I).upiIds ↔
      x ∈ S.upiIds ∨ x ∈ I.upiIds)
    ∧ (∀ x, x ∈ (SessionManager.mergeIntelligence S I).phishingLinks ↔
      x ∈ S.phishingLinks ∨ x ∈ I.phishingLinks)
    ∧ (∀ x, x ∈ (SessionManager.mergeIntelligence S I).phoneNumbers ↔
      x ∈ S.phoneNumbers ∨ x ∈ I.phoneNumbers)
    ∧ (∀ x, x ∈ (SessionManager.mergeIntelligence S I).suspiciousKeywords ↔
      x ∈ S.suspiciousKeywords ∨ x ∈ I.suspiciousKeywords)
    ∧ (∀ x, x ∈ (SessionManager.mergeIntelligence
        (SessionManager.mergeIntelligence S I) I).bankAccounts ↔
      x ∈ (SessionManager.mergeIntelligence S I).bankAccounts)
    ∧ (∀ x, x ∈ (SessionManager.mergeIntelligence
        (SessionManager.mergeIntelligence S I) I).upiIds ↔
      x ∈ (SessionManager.mergeIntelligence S I).upiIds)
    ∧ (∀ x, x ∈ (SessionManager.mergeIntelligence
        (SessionManager.mergeIntelligence S I) I).phishingLinks ↔
      x ∈ (SessionManager.mergeIntelligence S I).phishingLinks)
    ∧ (∀ x, x ∈ (SessionManager.mergeIntelligence
        (SessionManager.mergeIntelligence S I) I).phoneNumbers ↔
      x ∈ (SessionManager.mergeIntelligence S I).phoneNumbers)
    ∧ (∀ x, x ∈ (SessionManager.mergeIntelligence
        (SessionManager.mergeIntelligence S I) I).suspiciousKeywords ↔
      x ∈ (SessionManager.mergeIntelligence S I).suspiciousKeywords) := by
  refine ⟨?_, ?_, ?_, ?_, ?_, ?_, ?_, ?_, ?_, ?_⟩ <;> intro x <;>
    simp only [SessionManager.mergeIntelligence, List.mem_dedup, List.mem_append] <;>
    tauto

/-- C10: the session-introspection lookup never mutates the store, it
returns `none` exactly when the id is absent, the endpoint surfaces that
as a 404, and — unlike `get_or_create` — a lookup of an unseen id does
not create a session (while `get_or_create` does). -/
theorem c10_get_is_pure_lookup (st : Store) (sid : String) :
    (SessionManager.get st sid).1 = st
    ∧ ((SessionManager.get st sid).2 = none ↔ st sid = none)
    ∧ (get_session_info st sid).1 = st
    ∧ ((get_session_info st sid).2 = SessionInfoResult.notFound 404 "Session not found"
        ↔ st sid = none)
    ∧ ((SessionManager.get_or_create st sid).1 sid).isSome = true := by
  refine ⟨rfl, Iff.rfl, ?_, ?_, ?_⟩
  · unfold get_session_info SessionManager.get
    cases h : st sid <;> simp [h]
  · unfold get_session_info SessionManager.get
    cases h : st sid <;> simp [h]
  · unfold SessionManager.get_or_create
    cases h : st sid <;> simp [h]

theorem pyBlank_of_all_space {s : String}
    (h : ∀ c ∈ s.data, isPySpace c = true) : pyBlank s = true := by
  unfold pyBlank pyStrip
  have h1 : s.data.dropWhile isPySpace = [] := List.dropWhile_eq_nil_iff.mpr h
  rw [h1]
  rfl

/-- C8: a request whose session id is empty or whitespace-only, or whose
message text is empty or whitespace-only, is rejected with HTTP 400 and
the session store is left completely unchanged. -/
theorem c8_blank_rejected_no_mutation (st : Store) (req : AnalyzeRequest)
    (env : AnalyzeEnv)
    (h : (∀ c ∈ req.sessionId.data, isPySpace c = true)
      ∨ (∀ c ∈ req.message.text.data, isPySpace c = true)) :
    (analyze st req env).1 = st
    ∧ ((analyze st req env).2
          = AnalyzeOutcome.error 400 "sessionId is required and cannot be empty"
        ∨ (analyze st req env).2
          = AnalyzeOutcome.error 400 "message.text is required and cannot be empty") := by
  unfold analyze
  rcases h with h | h
  · rw [if_pos (pyBlank_of_all_space h)]
    exact ⟨rfl, Or.inl rfl⟩
  · by_cases h1 : pyBlank req.sessionId = true
    · rw [if_pos h1]
      exact ⟨rfl, Or.inl rfl⟩
    · rw [if_neg (by simpa using h1), if_pos (pyBlank_of_all_space h)]
      exact ⟨rfl, Or.inr rfl⟩

/-- C8 witness: a request with a whitespace-only session id against the
empty store. -/
theorem c8_blank_rejected_witness :
    ((∀ c ∈ ("  ".data : List Char), isPySpace c = true)
      ∨ (∀ c ∈ ("hello".data : List Char), isPySpace c = true))
    ∧ ((analyze emptyStore
          { sessionId := "  ", message := { sender := "scammer", text := "hello", timestamp := 0 } }
          { detect_is_scam := true, detect_confidence := 0, agent_reply := "r",
            reply_timestamp := 0, callback_success := true }).1 = emptyStore
      ∧ ((analyze emptyStore
          { sessionId := "  ", message := { sender := "scammer", text := "hello", timestamp := 0 } }
          { detect_is_scam := true, detect_confidence := 0, agent_reply := "r",
            reply_timestamp := 0, callback_success := true }).2
            = AnalyzeOutcome.error 400 "sessionId is required and cannot be empty"
        ∨ (analyze emptyStore
          { sessionId := "  ", message := { sender := "scammer", text := "hello", timestamp := 0 } }
          { detect_is_scam := true, detect_confidence := 0, agent_reply := "r",
            reply_timestamp := 0, callback_success := true }).2
            = AnalyzeOutcome.error 400 "message.text is required and cannot be empty")) :=
  ⟨Or.inl (by decide),
    c8_blank_rejected_no_mutation emptyStore
      { sessionId := "  ", message := { sender := "scammer", text := "hello", timestamp := 0 } }
      { detect_is_scam := true, detect_confidence := 0, agent_reply := "r",
        reply_timestamp := 0, callback_success := true }
      (Or.inl (by decide))⟩

/-- Every match emitted by the card scanner has exactly 16 digits. -/
theorem cardScanF_len :
    ∀ (fuel : Nat) (prev : Option Char) (s : List Char) (m : List Char),
      m ∈ cardScanF fuel prev s → m.length = 16 := by
  intro fuel
  induction fuel with
  | zero =>
    intro prev s m hm
    cases s <;> simp [cardScanF] at hm
  | succ n ih =>
    intro prev s m hm
    cases s with
    | nil => simp [cardScanF] at hm
    | cons c rest =>
      simp only [cardScanF] at hm
      split at hm
      · split at hm
        next card remainder heq =>
          rcases List.mem_cons.mp hm with hm | hm
          · subst hm
            exact matchCard_card_len heq
          · exact ih _ _ _ hm
        next heq => exact ih _ _ _ hm
      · exact ih _ _ _ hm

theorem isPhoneLike_false_ten {num : List Char} (h : isPhoneLike num = false)
    (hlen : num.length = 10) :
    ∀ d, num.head? = some d → d ∉ (['6', '7', '8', '9'] : List Char) := by
  intro d hd hmem
  unfold isPhoneLike at h
  rw [hd, hlen] at h
  simp only [Bool.or_eq_false_iff, Bool.and_eq_false_iff] at h
  rcases h.1 with h1 | h1
  · simp at h1
  · simp only [List.mem_cons, List.not_mem_nil, or_false] at hmem
    rcases hmem with rfl | rfl | rfl | rfl <;> simp at h1

theorem isPhoneLike_false_twelve {num : List Char} (h : isPhoneLike num = false)
    (hlen : num.length = 12) (htake : num.take 2 = ['9', '1']) :
    ∀ d, num.get? 2 = some d → d ∉ (['6', '7', '8', '9'] : List Char) := by
  intro d hd hmem
  unfold isPhoneLike at h
  rw [hd, hlen, htake] at h
  simp only [Bool.or_eq_false_iff, Bool.and_eq_false_iff] at h
  rcases h.2 with (h1 | h1) | h1
  · simp at h1
  · simp at h1
  · simp only [List.mem_cons, List.not_mem_nil, or_false] at hmem
    rcases hmem with rfl | rfl | rfl | rfl <;> simp at h1

/-- C3: for every input, the bank-account extractor emits no 10-digit
value starting with 6-9 and no 12-digit value starting with `91`
followed by 6-9; and on the example input the output is exactly
`{"123456789012"}`. -/
theorem c3_bank_excludes_phone_shapes :
    (∀ (text s : String), s ∈ extract_bank_accounts text →
      (s.length = 10 →
        ∀ d, s.data.head? = some d → d ∉ (['6', '7', '8', '9'] : List Char))
      ∧ (s.length = 12 → s.data.take 2 = ['9', '1'] →
        ∀ d, s.data.get? 2 = some d → d ∉ (['6', '7', '8', '9'] : List Char)))
    ∧ extract_bank_accounts "send to 9876543210 or account 123456789012"
        = ["123456789012"] := by
  constructor
  · intro text s hs
    simp only [extract_bank_accounts, List.mem_dedup, List.mem_append, List.mem_map,
      List.mem_filter] at hs
    rcases hs with ⟨num, ⟨hmem, hfilt⟩, rfl⟩ | ⟨card, hmem, rfl⟩
    · have hfalse : isPhoneLike num = false := by
        simpa using hfilt
      constructor
      · intro hlen d hd
        exact isPhoneLike_false_ten hfalse hlen d hd
      · intro hlen htake d hd
        exact isPhoneLike_false_twelve hfalse hlen htake d hd
    · have h16 : card.length = 16 := by
        unfold cardScan at hmem
        exact cardScanF_len _ _ _ _ hmem
      have hlen : (String.mk card).length = 16 := h16
      constructor
      · intro h10
        rw [hlen] at h10
        exact absurd h10 (by decide)
      · intro h12
        rw [hlen] at h12
        exact absurd h12 (by decide)
  · decide

/-- C3 witness: the universal part applied to the example input and its
only output value. -/
theorem c3_bank_excludes_phone_shapes_witness :
    ("123456789012" ∈ extract_bank_accounts "send to 9876543210 or account 123456789012")
    ∧ (("123456789012" : String).length = 12 →
        ("123456789012" : String).data.take 2 = ['9', '1'] →
        ∀ d, ("123456789012" : String).data.get? 2 = some d →
          d ∉ (['6', '7', '8', '9'] : List Char)) :=
  ⟨by decide,
    (c3_bank_excludes_phone_shapes.1 "send to 9876543210 or account 123456789012"
      "123456789012" (by decide)).2⟩

/-- C4: the phone extractor maps each of the four surface forms to
exactly the singleton `{"+919876543210"}`. -/
theorem c4_phone_normalization :
    extract_phone_numbers "+91 98765 43210" = ["+919876543210"]
    ∧ extract_phone_numbers "919876543210" = ["+919876543210"]
    ∧ extract_phone_numbers "09876543210" = ["+919876543210"]
    ∧ extract_phone_numbers "9876543210" = ["+919876543210"] :=
  ⟨by decide, by decide, by decide, by decide⟩

/-- C5: for every input, the UPI extractor keeps no value whose suffix
after the last `'@'` ends in one of the listed email TLDs or contains a
known email-provider substring; and on the example input the output is
exactly `{"john@ybl"}`. -/
theorem c5_upi_excludes_emails :
    (∀ (text u : String), u ∈ extract_upi_ids text →
      (∀ tld ∈ email_tlds, tld.data.isSuffixOf (afterLastAt u.data) = false)
      ∧ (∀ p ∈ email_providers, containsSub p.data (afterLastAt u.data) = false))
    ∧ extract_upi_ids "mail me at john@gmail.com or pay upi john@ybl"
        = ["john@ybl"] := by
  constructor
  · intro text u hu
    simp only [extract_upi_ids, List.mem_dedup, List.mem_filter] at hu
    obtain ⟨-, hpred⟩ := hu
    rw [Bool.and_eq_true, Bool.and_eq_true] at hpred
    obtain ⟨⟨-, -⟩, hno⟩ := hpred
    have hfalse : isEmailLike u.data = false := by
      simpa using hno
    simp only [isEmailLike, Bool.or_eq_false_iff, List.any_eq_false] at hfalse
    obtain ⟨htld, hprov⟩ := hfalse
    constructor
    · intro tld hmem
      exact Bool.eq_false_iff.mpr (htld tld hmem)
    · intro p hmem
      exact Bool.eq_false_iff.mpr (hprov p hmem)
  · decide

/-- C5 witness: the universal part applied to the example input and its
only output value. -/
theorem c5_upi_excludes_emails_witness :
    ("john@ybl" ∈ extract_upi_ids "mail me at john@gmail.com or pay upi john@ybl")
    ∧ (∀ tld ∈ email_tlds,
        tld.data.isSuffixOf (afterLastAt ("john@ybl" : String).data) = false) :=
  ⟨by decide,
    (c5_upi_excludes_emails.1 "mail me at john@gmail.com or pay upi john@ybl"
      "john@ybl" (by decide)).1⟩

/-! ## Store lemmas for the `/analyze` flow -/

theorem updSession_at (st : Store) (sid : String) (f : SessionState → SessionState) :
    SessionManager.updSession st sid f sid
      = some (f ((st sid).getD (newSession sid))) := by
  unfold SessionManager.updSession SessionManager.get_or_create
  cases h : st sid <;> simp [h]

theorem updSession_other (st : Store) (sid : String) (f : SessionState → SessionState)
    (k : String) (h : k ≠ sid) :
    SessionManager.updSession st sid f k = st k := by
  unfold SessionManager.updSession SessionManager.get_or_create
  cases hc : st sid <;> simp [h, hc]

theorem callbackFlag_updSession (st : Store) (sid sid' : String)
    (f : SessionState → SessionState)
    (hf : ∀ s, (f s).callback_sent = s.callback_sent) :
    callbackFlag (SessionManager.updSession st sid f) sid' = callbackFlag st sid' := by
  by_cases h : sid' = sid
  · subst h
    unfold callbackFlag
    rw [updSession_at]
    cases hc : st sid' <;> simp [hc, hf, newSession]
  · unfold callbackFlag
    rw [updSession_other _ _ _ _ h]

theorem callbackFlag_updSession_other (st : Store) (sid : String)
    (f : SessionState → SessionState) (k : String) (h : k ≠ sid) :
    callbackFlag (SessionManager.updSession st sid f) k = callbackFlag st k := by
  unfold callbackFlag
  rw [updSession_other _ _ _ _ h]

theorem callbackFlag_gc (st : Store) (sid sid' : String) :
    callbackFlag (SessionManager.get_or_create st sid).1 sid' = callbackFlag st sid' := by
  unfold SessionManager.get_or_create callbackFlag
  cases hc : st sid
  · by_cases h : sid' = sid
    · subst h
      simp [hc, newSession]
    · simp [hc, h]
  · simp [hc]

theorem callbackFlag_add_message (st : Store) (sid sender text : String)
    (ts : Int) (sid' : String) :
    callbackFlag (SessionManager.add_message st sid sender text ts) sid'
      = callbackFlag st sid' := by
  unfold SessionManager.add_message
  apply callbackFlag_updSession
  intro s
  rfl

theorem callbackFlag_mark_scam (st : Store) (sid : String) (conf : ℚ) (sid' : String) :
    callbackFlag (SessionManager.mark_scam_detected st sid conf) sid'
      = callbackFlag st sid' := by
  unfold SessionManager.mark_scam_detected
  apply callbackFlag_updSession
  intro s
  rfl

theorem callbackFlag_update_intelligence (st : Store) (sid : String)
    (i : ExtractedIntelligence) (sid' : String) :
    callbackFlag (SessionManager.update_intelligence st sid i) sid'
      = callbackFlag st sid' := by
  unfold SessionManager.update_intelligence
  apply callbackFlag_updSession
  intro s
  rfl

theorem callbackFlag_set_notes (st : Store) (sid notes sid' : String) :
    callbackFlag (SessionManager.set_agent_notes st sid notes) sid'
      = callbackFlag st sid' := by
  unfold SessionManager.set_agent_notes
  apply callbackFlag_updSession
  intro s
  rfl

theorem callbackFlag_step5 (st : Store) (req : AnalyzeRequest) (env : AnalyzeEnv)
    (sid' : String) :
    callbackFlag (analyzeStep5 st req env) sid' = callbackFlag st sid' := by
  unfold analyzeStep5
  rw [callbackFlag_add_message, callbackFlag_update_intelligence]
  split
  · rw [callbackFlag_mark_scam, callbackFlag_add_message]
    exact callbackFlag_gc _ _ _
  · rw [callbackFlag_add_message]
    exact callbackFlag_gc _ _ _

theorem getD_get_callback (st : Store) (sid : String) :
    (((SessionManager.get st sid).2).getD (newSession sid)).callback_sent
      = callbackFlag st sid := by
  unfold SessionManager.get callbackFlag
  cases h : st sid <;> simp [h, newSession]

theorem callbackFlag_mark (st : Store) (sid : String) :
    callbackFlag (SessionManager.mark_callback_sent st sid) sid = true := by
  unfold SessionManager.mark_callback_sent callbackFlag
  rw [updSession_at]

/-- The central flag/outcome specification of one `/analyze` call: for
foreign sessions the reported flag is untouched; for the request's own
session the flag after the call is the flag before, or-ed with the
success of this call's dispatch; and when the flag is already set the
call neither attempts nor performs a dispatch. -/
theorem analyze_flag_spec (st : Store) (req : AnalyzeRequest) (env : AnalyzeEnv)
    (sid : String) :
    (sid ≠ req.sessionId →
      callbackFlag (analyze st req env).1 sid = callbackFlag st sid)
    ∧ callbackFlag (analyze st req env).1 req.sessionId
        = (callbackFlag st req.sessionId || stepSuccessFor st req env req.sessionId)
    ∧ (callbackFlag st req.sessionId = true →
        ∀ r a s, (analyze st req env).2 = AnalyzeOutcome.ok r a s →
          a = false ∧ s = false) := by
  have hstep5 : ∀ k, callbackFlag (analyzeStep5 st req env) k = callbackFlag st k :=
    callbackFlag_step5 st req env
  by_cases h1 : pyBlank req.sessionId = true
  · have he : analyze st req env
        = (st, .error 400 "sessionId is required and cannot be empty") := by
      unfold analyze
      rw [if_pos h1]
    refine ⟨fun _ => by rw [he], ?_, ?_⟩
    · rw [he]
      unfold stepSuccessFor
      rw [he]
      simp
    · intro _ r a s hs
      rw [he] at hs
      exact absurd hs (by simp)
  · by_cases h2 : pyBlank req.message.text = true
    · have he : analyze st req env
          = (st, .error 400 "message.text is required and cannot be empty") := by
        unfold analyze
        rw [if_neg h1, if_pos h2]
      refine ⟨fun _ => by rw [he], ?_, ?_⟩
      · rw [he]
        unfold stepSuccessFor
        rw [he]
        simp
      · intro _ r a s hs
        rw [he] at hs
        exact absurd hs (by simp)
    · have hcb : (((SessionManager.get (analyzeStep5 st req env) req.sessionId).2).getD
          (newSession req.sessionId)).callback_sent = callbackFlag st req.sessionId := by
        rw [getD_get_callback, hstep5]
      have he : analyze st req env =
          (let st5 := analyzeStep5 st req env
           let session := ((SessionManager.get st5 req.sessionId).2).getD
             (newSession req.sessionId)
           let se := should_end_conversation session.messages
             session.extracted_intelligence
           if se.1 && session.scam_detected && !session.callback_sent then
             let st6 := SessionManager.set_agent_notes st5 req.sessionId
               (generate_agent_notes session.messages session.extracted_intelligence)
             if env.callback_success then
               (SessionManager.mark_callback_sent st6 req.sessionId,
                 .ok env.agent_reply true true)
             else (st6, .ok env.agent_reply true false)
           else (st5, .ok env.agent_reply false false)) := by
        unfold analyze
        rw [if_neg h1, if_neg h2]
      simp only at he
      by_cases hg : ((should_end_conversation
            (((SessionManager.get (analyzeStep5 st req env) req.sessionId).2).getD
              (newSession req.sessionId)).messages
            (((SessionManager.get (analyzeStep5 st req env) req.sessionId).2).getD
              (newSession req.sessionId)).extracted_intelligence).1
          && (((SessionManager.get (analyzeStep5 st req env) req.sessionId).2).getD
              (newSession req.sessionId)).scam_detected
          && !(((SessionManager.get (analyzeStep5 st req env) req.sessionId).2).getD
              (newSession req.sessionId)).callback_sent) = true
      · have hflagfalse : callbackFlag st req.sessionId = false := by
          rcases Bool.and_eq_true .. |>.mp hg with ⟨-, hnb⟩
          rw [Bool.not_eq_eq_eq_not, Bool.not_true] at hnb
          rw [← hcb]
          exact hnb
        by_cases hcs : env.callback_success = true
        · have he2 : analyze st req env =
              (SessionManager.mark_callback_sent
                (SessionManager.set_agent_notes (analyzeStep5 st req env) req.sessionId
                  (generate_agent_notes
                    (((SessionManager.get (analyzeStep5 st req env) req.sessionId).2).getD
                      (newSession req.sessionId)).messages
                    (((SessionManager.get (analyzeStep5 st req env) req.sessionId).2).getD
                      (newSession req.sessionId)).extracted_intelligence))
                req.sessionId,
               .ok env.agent_reply true true) := by
            rw [he, if_pos hg, if_pos hcs]
          refine ⟨?_, ?_, ?_⟩
          · intro hne
            rw [he2]
            unfold SessionManager.mark_callback_sent SessionManager.set_agent_notes
            rw [callbackFlag_updSession_other _ _ _ _ hne,
              callbackFlag_updSession_other _ _ _ _ hne]
            exact hstep5 sid
          · rw [he2]
            have hsucc : stepSuccessFor st req env req.sessionId = true := by
              unfold stepSuccessFor
              rw [he2]
              simp
            rw [hsucc, Bool.or_true]
            exact callbackFlag_mark _ _
          · intro hflag
            rw [hflag] at hflagfalse
            exact absurd hflagfalse (by simp)
        · have he2 : analyze st req env =
              (SessionManager.set_agent_notes (analyzeStep5 st req env) req.sessionId
                (generate_agent_notes
                  (((SessionManager.get (analyzeStep5 st req env) req.sessionId).2).getD
                    (newSession req.sessionId)).messages
                  (((SessionManager.get (analyzeStep5 st req env) req.sessionId).2).getD
                    (newSession req.sessionId)).extracted_intelligence),
               .ok env.agent_reply true false) := by
            rw [he, if_pos hg, if_neg hcs]
          refine ⟨?_, ?_, ?_⟩
          · intro hne
            rw [he2]
            unfold SessionManager.set_agent_notes
            rw [callbackFlag_updSession_other _ _ _ _ hne]
            exact hstep5 sid
          · rw [he2]
            have hsucc : stepSuccessFor st req env req.sessionId = false := by
              unfold stepSuccessFor
              rw [he2]
              simp
            rw [hsucc, Bool.or_false]
            rw [callbackFlag_set_notes]
            exact hstep5 _
          · intro hflag
            rw [hflag] at hflagfalse
            exact absurd hflagfalse (by simp)
      · have he2 : analyze st req env =
            (analyzeStep5 st req env, .ok env.agent_reply false false) := by
          rw [he, if_neg hg]
        refine ⟨?_, ?_, ?_⟩
        · intro _
          rw [he2]
          exact hstep5 sid
        · rw [he2]
          have hsucc : stepSuccessFor st req env req.sessionId = false := by
            unfold stepSuccessFor
            rw [he2]
            simp
          rw [hsucc, Bool.or_false]
          exact hstep5 _
        · intro _ r a s hs
          rw [he2] at hs
          simp only [AnalyzeOutcome.ok.injEq] at hs
          exact ⟨hs.2.1.symm, hs.2.2.symm⟩

/-- One `/analyze` call's effect on any session's reported flag: the
flag afterwards is the flag before, or-ed with this call's successful
dispatch for that session. -/
theorem analyze_callbackFlag (st : Store) (req : AnalyzeRequest) (env : AnalyzeEnv)
    (sid : String) :
    callbackFlag (analyze st req env).1 sid
      = (callbackFlag st sid || stepSuccessFor st req env sid) := by
  by_cases h : sid = req.sessionId
  · rw [h]
    exact (analyze_flag_spec st req env req.sessionId).2.1
  · rw [(analyze_flag_spec st req env sid).1 h]
    have hne : ¬(req.sessionId = sid) := fun e => h e.symm
    have hz : stepSuccessFor st req env sid = false := by
      unfold stepSuccessFor
      simp [hne]
    rw [hz, Bool.or_false]

theorem stepSuccess_false_of_flag (st : Store) (req : AnalyzeRequest)
    (env : AnalyzeEnv) (sid : String) (h : callbackFlag st sid = true) :
    stepSuccessFor st req env sid = false := by
  by_cases he : req.sessionId = sid
  · subst he
    unfold stepSuccessFor
    cases ho : (analyze st req env).2 with
    | error code detail => simp [ho]
    | ok r a s =>
      have hs := (analyze_flag_spec st req env req.sessionId).2.2 h r a s ho
      simp [ho, hs.2]
  · unfold stepSuccessFor
    simp [he]

theorem countSuccess_eq_zero_of_flag (st : Store)
    (trace : List (AnalyzeRequest × AnalyzeEnv)) (sid : String)
    (h : callbackFlag st sid = true) :
    countSuccess st trace sid = 0 := by
  induction trace generalizing st with
  | nil => rfl
  | cons pe rest ih =>
    rcases pe with ⟨req, env⟩
    unfold countSuccess
    rw [stepSuccess_false_of_flag st req env sid h]
    have hafter : callbackFlag (analyze st req env).1 sid = true := by
      rw [analyze_callbackFlag, h, Bool.true_or]
    simp [ih _ hafter]

theorem countSuccess_le_one (st : Store)
    (trace : List (AnalyzeRequest × AnalyzeEnv)) (sid : String)
    (h : callbackFlag st sid = false) :
    countSuccess st trace sid ≤ 1 := by
  induction trace generalizing st with
  | nil => simp [countSuccess]
  | cons pe rest ih =>
    rcases pe with ⟨req, env⟩
    unfold countSuccess
    by_cases hs : stepSuccessFor st req env sid = true
    · rw [hs]
      have hafter : callbackFlag (analyze st req env).1 sid = true := by
        rw [analyze_callbackFlag, hs, Bool.or_true]
      rw [countSuccess_eq_zero_of_flag _ _ _ hafter]
      simp
    · rw [Bool.eq_false_iff.mpr hs]
      have hafter : callbackFlag (analyze st req env).1 sid = false := by
        rw [analyze_callbackFlag, h, Bool.false_or]
        exact Bool.eq_false_iff.mpr hs
      simpa using ih _ hafter

/-- C7: along any sequence of `/analyze` requests, the final report of a
session whose reported flag is not yet set is dispatched successfully at
most once; once the flag is set, a later request neither attempts nor
performs a dispatch for that session and the flag stays set; and after a
dispatch attempt that failed, the flag is still unset, so a later
qualifying request may retry. -/
theorem c7_dispatch_at_most_once (st : Store)
    (trace : List (AnalyzeRequest × AnalyzeEnv)) (sid : String)
    (req : AnalyzeRequest) (env : AnalyzeEnv) :
    (callbackFlag st sid = false → countSuccess st trace sid ≤ 1)
    ∧ (callbackFlag st req.sessionId = true →
        (∀ r a s, (analyze st req env).2 = AnalyzeOutcome.ok r a s →
          a = false ∧ s = false)
        ∧ callbackFlag (analyze st req env).1 req.sessionId = true)
    ∧ (∀ r, (analyze st req env).2 = AnalyzeOutcome.ok r true false →
        callbackFlag (analyze st req env).1 req.sessionId = false) := by
  refine ⟨countSuccess_le_one st trace sid, ?_, ?_⟩
  · intro hflag
    refine ⟨(analyze_flag_spec st req env req.sessionId).2.2 hflag, ?_⟩
    rw [analyze_callbackFlag, hflag, Bool.true_or]
  · intro r ho
    cases hcb : callbackFlag st req.sessionId with
    | true =>
      have := ((analyze_flag_spec st req env req.sessionId).2.2 hcb r true false ho).1
      exact absurd this (by simp)
    | false =>
      rw [analyze_callbackFlag, hcb, Bool.false_or]
      unfold stepSuccessFor
      rw [ho]
      simp

/-- C7 witness: a one-request trace from the empty store. -/
theorem c7_dispatch_at_most_once_witness :
    callbackFlag emptyStore "s1" = false ∧
    countSuccess emptyStore
      [({ sessionId := "s1",
          message := { sender := "scammer", text := "send otp", timestamp := 0 } },
        { detect_is_scam := true, detect_confidence := 0, agent_reply := "ok",
          reply_timestamp := 0, callback_success := true })] "s1" ≤ 1 :=
  ⟨rfl,
    (c7_dispatch_at_most_once emptyStore
      [({ sessionId := "s1",
          message := { sender := "scammer", text := "send otp", timestamp := 0 } },
        { detect_is_scam := true, detect_confidence := 0, agent_reply := "ok",
          reply_timestamp := 0, callback_success := true })] "s1"
      { sessionId := "s1",
        message := { sender := "scammer", text := "send otp", timestamp := 0 } }
      { detect_is_scam := true, detect_confidence := 0, agent_reply := "ok",
        reply_timestamp := 0, callback_success := true }).1 rfl⟩

end Honeypot
